import Mathlib

/-!
Verification development for the Linux HCI user-channel socket layer of the
kirbo/ble repository (file examples/lib/dev/default_linux.go, package socket).

The Go code is shallowly embedded: every kernel interaction (socket creation,
ioctl, bind, poll, read, write, close, mutex operations, closing the one-shot
channel) is recorded as an event, and the outcome of each kernel call is taken
from an explicit kernel oracle structure, so that each Go function becomes a
pure Lean function from the oracle (and handle state) to the event trace it
produces together with its returned value.  Errors are modelled as the strings
produced by the errors package: errors.Wrap(err, msg) renders as
"msg: err", errors.Wrap(nil, msg) is nil, and io.EOF renders as "EOF".
-/

set_option maxRecDepth 4000

namespace KirboBle

/-- Events observable at the kernel and synchronization boundary, in the order
the embedded functions emit them. -/
inductive Ev where
  | createSocket
  | getDeviceList
  | downDev (id : Nat)
  | upDev (id : Nat)
  | bindDev (id : Nat)
  | pollWait (timeoutMs : Nat)
  | readFd (bufLen : Nat)
  | writeFd (data : List Nat)
  | closeFd
  | acquireRead
  | releaseRead
  | acquireWrite
  | releaseWrite
  | signalClosed
  deriving DecidableEq, Repr

/-- Rendering of errors.Wrap(cause, msg): the message is "msg: cause". -/
def wrap (msg cause : String) : String := msg ++ ": " ++ cause

/-- Embeds func ioR(t, nr, size uintptr) uintptr, namely
(2 shifted left by 30) or (t shifted left by 8) or nr or (size shifted left
by 16), reduced modulo 2 to the 64 as uintptr is 64 bits wide on linux/amd64. -/
def ioR (t nr size : Nat) : Nat :=
  ((2 <<< 30) ||| (t <<< 8) ||| nr ||| (size <<< 16)) % 2 ^ 64

/-- Embeds func ioW(t, nr, size uintptr) uintptr, identical to ioR except for
the leading direction constant 1 instead of 2. -/
def ioW (t nr size : Nat) : Nat :=
  ((1 <<< 30) ||| (t <<< 8) ||| nr ||| (size <<< 16)) % 2 ^ 64

/-- Constant ioctlSize = 4 from the source. -/
def ioctlSize : Nat := 4

/-- Constant hciMaxDevices = 16 from the source. -/
def hciMaxDevices : Nat := 16

/-- Constant typHCI = 72 from the source. -/
def typHCI : Nat := 72

/-- Precomputed control code HCIDEVUP. -/
def hciUpDevice : Nat := ioW typHCI 201 ioctlSize

/-- Precomputed control code HCIDEVDOWN. -/
def hciDownDevice : Nat := ioW typHCI 202 ioctlSize

/-- Precomputed control code HCIGETDEVLIST. -/
def hciGetDeviceList : Nat := ioR typHCI 210 ioctlSize

/-- Transport handle: struct Socket with the file descriptor and the closed
channel.  The one-shot channel close(s.closed) is modelled by the boolean
closed, true once the channel has been closed. -/
structure Socket where
  fd : Nat
  closed : Bool
  deriving DecidableEq, Repr

/-- Kernel oracle for one run of func open(fd, id int): the outcome of each
kernel call the function makes, in program order.  A some value is the errno
of a failing call, none is success.  pollRet and readRet are the return
values of unix.Poll and of the drain unix.Read; the Go code discards both, so
openDev never consults them. -/
structure OpenKernel where
  down1Err : Option String
  upErr : Option String
  down2Err : Option String
  bindErr : Option String
  pollDataReady : Bool
  pollRet : Int
  readRet : Int

/-- Embeds func open(fd, id int) (*Socket, error): down ioctl, up ioctl, down
ioctl, bind to the HCI user channel, a poll of at most 20 ms, a drain read of
at most 100 bytes when data is ready, then construction of the handle with a
fresh unclosed channel.  Each ioctl or bind failure returns immediately with
the wrapped error of the source. -/
def openDev (k : OpenKernel) (fd id : Nat) : List Ev × Except String Socket :=
  match k.down1Err with
  | some e => ([Ev.downDev id], Except.error (wrap "can\x27t down device" e))
  | none =>
    match k.upErr with
    | some e => ([Ev.downDev id, Ev.upDev id], Except.error (wrap "can\x27t up device" e))
    | none =>
      match k.down2Err with
      | some e =>
        ([Ev.downDev id, Ev.upDev id, Ev.downDev id],
         Except.error (wrap "can\x27t down device" e))
      | none =>
        match k.bindErr with
        | some e =>
          ([Ev.downDev id, Ev.upDev id, Ev.downDev id, Ev.bindDev id],
           Except.error (wrap "can\x27t bind socket to hci user channel" e))
        | none =>
          ([Ev.downDev id, Ev.upDev id, Ev.downDev id, Ev.bindDev id, Ev.pollWait 20] ++
             (if k.pollDataReady then [Ev.readFd 100] else []),
           Except.ok { fd := fd, closed := false })

/-- Kernel oracle for one run of func NewSocket(id int): the outcome of the
raw socket creation, the descriptor it yields, the outcome of the
HCIGETDEVLIST ioctl, the device count the kernel writes into req.devNum, and
the oracle governing the open attempt on each device index. -/
structure ListKernel where
  sockErr : Option String
  fd : Nat
  listErr : Option String
  devNum : Nat
  perDev : Nat → OpenKernel

/-- Embeds the loop for id := 0; id < int(req.devNum); id++ of NewSocket:
from index i with n indices left and accumulated message msg, attempt
open(fd, i); return the first success, otherwise append
"(hci<i>: <err>)" to msg and continue; when no index is left return the
error "no devices available: <msg>". -/
def autoLoop (k : ListKernel) : Nat → Nat → String → List Ev × Except String Socket
  | _i, 0, msg => ([], Except.error ("no devices available: " ++ msg))
  | i, n + 1, msg =>
    let p := openDev (k.perDev i) k.fd i
    match p.2 with
    | Except.ok s => (p.1, Except.ok s)
    | Except.error e =>
      let r := autoLoop k (i + 1) n (msg ++ "(hci" ++ toString i ++ ": " ++ e ++ ")")
      (p.1 ++ r.1, r.2)

/-- Embeds func NewSocket(id int) (*Socket, error): create the raw HCI
socket; with a specific id run the open sequence once on it; with id = -1
issue the device-list ioctl and run the probe loop over the reported count.
No branch of the function ever closes the raw descriptor. -/
def newSocket (k : ListKernel) (id : Int) : List Ev × Except String Socket :=
  match k.sockErr with
  | some e => ([Ev.createSocket], Except.error (wrap "can\x27t create socket" e))
  | none =>
    if id ≠ -1 then
      let r := openDev (k.perDev id.toNat) k.fd id.toNat
      (Ev.createSocket :: r.1, r.2)
    else
      match k.listErr with
      | some e =>
        ([Ev.createSocket, Ev.getDeviceList],
         Except.error (wrap "can\x27t get device list" e))
      | none =>
        let r := autoLoop k 0 k.devNum ""
        (Ev.createSocket :: Ev.getDeviceList :: r.1, r.2)

/-- Kernel oracle for one unix.Read call: the byte count and errno it
returns. -/
structure ReadKernel where
  readN : Nat
  readErr : Option String

/-- Embeds func (s *Socket) Read(p []byte): the select on s.closed with a
default case returns (0, io.EOF) at once when the channel is closed, touching
neither the read mutex nor the descriptor; otherwise it locks rmu, performs
the kernel read, unlocks, and wraps any kernel error. -/
def socketRead (k : ReadKernel) (s : Socket) (bufLen : Nat) :
    List Ev × (Nat × Option String) :=
  if s.closed then
    ([], (0, some "EOF"))
  else
    ([Ev.acquireRead, Ev.readFd bufLen, Ev.releaseRead],
     (k.readN, k.readErr.map (wrap "can\x27t read hci socket")))

/-- Embeds func (s *Socket) Write(p []byte): lock wmu, kernel write, unlock,
wrapping any kernel error.  werr is the errno of the kernel write, none on
success. -/
def socketWrite (werr : Option String) (p : List Nat) :
    List Ev × (Nat × Option String) :=
  ([Ev.acquireWrite, Ev.writeFd p, Ev.releaseWrite],
   match werr with
   | some e => (0, some (wrap "can\x27t write hci socket" e))
   | none => (p.length, none))

/-- Kernel oracle for one run of func (s *Socket) Close(): the errno of the
shutdown-frame write and of unix.Close, none on success. -/
structure CloseKernel where
  writeErr : Option String
  closeErr : Option String

/-- Outcome of a Close call: a Go runtime panic (from close on an already
closed channel) or a normal return carrying the returned error and the
post-state of the handle. -/
inductive CloseResult where
  | panicked
  | returned (err : Option String) (s : Socket)
  deriving DecidableEq, Repr

/-- Fixed 4-byte shutdown frame written by Close. -/
def shutdownFrame : List Nat := [0x01, 0x09, 0x10, 0x00]

/-- Embeds func (s *Socket) Close(): close(s.closed) panics if the channel is
already closed; otherwise the channel is marked closed, the shutdown frame is
written through s.Write (whose result is discarded), then rmu is locked,
unix.Close(s.fd) runs, the deferred unlock fires, and the close error is
returned wrapped. -/
def socketClose (k : CloseKernel) (s : Socket) : List Ev × CloseResult :=
  if s.closed then
    ([], CloseResult.panicked)
  else
    let w := socketWrite k.writeErr shutdownFrame
    (Ev.signalClosed :: w.1 ++ [Ev.acquireRead, Ev.closeFd, Ev.releaseRead],
     CloseResult.returned (k.closeErr.map (wrap "can\x27t close hci socket"))
       { s with closed := true })

/-- Kernel oracle for one run of func Up or func Down: the errno of the raw
socket creation, of the single ioctl, and of unix.Close, none on success. -/
structure CtlKernel where
  sockErr : Option String
  ioctlErr : Option String
  closeErr : Option String

/-- Embeds func Up(id int) error: create a transient raw socket, issue the
HCIDEVUP ioctl, and return unix.Close(fd) unchanged.  Socket creation and
ioctl failures are wrapped; the close error is returned as is. -/
def up (k : CtlKernel) (id : Nat) : List Ev × Option String :=
  match k.sockErr with
  | some e => ([Ev.createSocket], some (wrap "can\x27t create socket" e))
  | none =>
    match k.ioctlErr with
    | some e => ([Ev.createSocket, Ev.upDev id], some (wrap "can\x27t up device" e))
    | none => ([Ev.createSocket, Ev.upDev id, Ev.closeFd], k.closeErr)

/-- Embeds func Down(id int) error, identical to Up with the HCIDEVDOWN
control code and its wrap message. -/
def down (k : CtlKernel) (id : Nat) : List Ev × Option String :=
  match k.sockErr with
  | some e => ([Ev.createSocket], some (wrap "can\x27t create socket" e))
  | none =>
    match k.ioctlErr with
    | some e => ([Ev.createSocket, Ev.downDev id], some (wrap "can\x27t down device" e))
    | none => ([Ev.createSocket, Ev.downDev id, Ev.closeFd], k.closeErr)

/-- Decides whether the first list occurs as a subsequence (in order, not
necessarily contiguous) of the second. -/
def seqInOrder : List Ev → List Ev → Bool
  | [], _ => true
  | _ :: _, [] => false
  | p :: ps, e :: es => if p = e then seqInOrder ps es else seqInOrder (p :: ps) es

/-- Renders the failure reasons E i, E (i+1), ..., for n consecutive device
indices starting at i, each as "(hci<index>: <reason>)", concatenated in
ascending index order. -/
def renderFails (E : Nat → String) : Nat → Nat → String
  | _i, 0 => ""
  | i, n + 1 => "(hci" ++ toString i ++ ": " ++ E i ++ ")" ++ renderFails E (i + 1) n

/-- Concrete open oracle where every kernel call succeeds and no inbound data
is pending. -/
def okKernel : OpenKernel :=
  { down1Err := none, upErr := none, down2Err := none, bindErr := none,
    pollDataReady := false, pollRet := 0, readRet := 0 }

/-- Concrete open oracle whose first down ioctl fails with ENODEV. -/
def downFailKernel : OpenKernel :=
  { okKernel with down1Err := some "ENODEV" }

/-- Concrete NewSocket oracle whose device-list ioctl fails with EPERM. -/
def leakListKernel : ListKernel :=
  { sockErr := none, fd := 4, listErr := some "EPERM", devNum := 0,
    perDev := fun _ => okKernel }

/-- Concrete NewSocket oracle reporting one device whose open attempt
fails. -/
def leakLoopKernel : ListKernel :=
  { sockErr := none, fd := 4, listErr := none, devNum := 1,
    perDev := fun _ => downFailKernel }

/-- Concrete NewSocket oracle reporting three devices, where the open attempt
fails on index 0 and succeeds from index 1 on. -/
def probeKernel : ListKernel :=
  { sockErr := none, fd := 7, listErr := none, devNum := 3,
    perDev := fun i => if i = 0 then downFailKernel else okKernel }

/-- Concrete NewSocket oracle reporting two devices whose open attempts both
fail. -/
def allFailKernel : ListKernel :=
  { sockErr := none, fd := 4, listErr := none, devNum := 2,
    perDev := fun _ => downFailKernel }

/-! Helper lemmas shared by the claim theorems. -/

/-- Additive normal form of the ioctl code builders: with each field inside
its bit range, the disjoint shifted fields combined by bitwise or equal their
sum, and the 64-bit reduction is the identity. -/
theorem io_add_form (d t nr size : Nat)
    (ht : t < 2 ^ 8) (hnr : nr < 2 ^ 8) (hsize : size < 2 ^ 14) (hd : d ≤ 2) :
    ((d <<< 30) ||| (t <<< 8) ||| nr ||| (size <<< 16)) % 2 ^ 64 =
      2 ^ 30 * d + (2 ^ 16 * size + (2 ^ 8 * t + nr)) := by
  have hA : 2 ^ 8 * t + nr = 2 ^ 8 * t ||| nr := Nat.mul_add_lt_is_or hnr t
  have hA_lt : 2 ^ 8 * t + nr < 2 ^ 16 := by omega
  have hM : 2 ^ 16 * size + (2 ^ 8 * t + nr) = 2 ^ 16 * size ||| (2 ^ 8 * t + nr) :=
    Nat.mul_add_lt_is_or hA_lt size
  have hM_lt : 2 ^ 16 * size + (2 ^ 8 * t + nr) < 2 ^ 30 := by omega
  have hX : 2 ^ 30 * d + (2 ^ 16 * size + (2 ^ 8 * t + nr)) =
      2 ^ 30 * d ||| (2 ^ 16 * size + (2 ^ 8 * t + nr)) :=
    Nat.mul_add_lt_is_or hM_lt d
  have hlt : 2 ^ 30 * d + (2 ^ 16 * size + (2 ^ 8 * t + nr)) < 2 ^ 64 := by omega
  rw [Nat.shiftLeft_eq, Nat.shiftLeft_eq, Nat.shiftLeft_eq]
  rw [Nat.mul_comm d (2 ^ 30), Nat.mul_comm t (2 ^ 8), Nat.mul_comm size (2 ^ 16)] at *
  rw [Nat.or_assoc, Nat.or_assoc, ← Nat.or_assoc (2 ^ 8 * t) nr (2 ^ 16 * size), ← hA,
    Nat.or_comm (2 ^ 8 * t + nr) (2 ^ 16 * size), ← hM, ← hX, Nat.mod_eq_of_lt hlt]

/-- The open sequence never emits a descriptor-release event. -/
theorem openDev_closeFd_not_mem (k : OpenKernel) (fd id : Nat) :
    Ev.closeFd ∉ (openDev k fd id).1 := by
  obtain ⟨d1, u, d2, b, pr, p1, r1⟩ := k
  unfold openDev
  cases d1 <;> cases u <;> cases d2 <;> cases b <;> cases pr <;> simp

/-- The probe loop of NewSocket never emits a descriptor-release event. -/
theorem autoLoop_closeFd_not_mem (k : ListKernel) :
    ∀ (n i : Nat) (msg : String), Ev.closeFd ∉ (autoLoop k i n msg).1 := by
  intro n
  induction n with
  | zero => intro i msg; simp [autoLoop]
  | succ m ih =>
    intro i msg
    simp only [autoLoop]
    cases hres : (openDev (k.perDev i) k.fd i).2 with
    | ok s =>
      simp only [hres]
      exact openDev_closeFd_not_mem _ _ _
    | error e =>
      simp only [hres, List.mem_append]
      push_neg
      exact ⟨openDev_closeFd_not_mem _ _ _, ih _ _⟩

/-- Characterization of the probe loop when the attempts on the first j
indices fail and the attempt on index j succeeds: the loop performs exactly
one attempt per index in ascending order, stops at the first success, and
returns its handle. -/
theorem autoLoop_first_success (k : ListKernel) :
    ∀ (j n i : Nat) (msg : String) (s : Socket), j < n →
      (∀ m, m < j → ∃ e, (openDev (k.perDev (i + m)) k.fd (i + m)).2 = Except.error e) →
      (openDev (k.perDev (i + j)) k.fd (i + j)).2 = Except.ok s →
      autoLoop k i n msg =
        (((List.range (j + 1)).map
            (fun m => (openDev (k.perDev (i + m)) k.fd (i + m)).1)).flatten,
         Except.ok s) := by
  intro j
  induction j with
  | zero =>
    intro n i msg s hn _hfail hsucc
    cases n with
    | zero => omega
    | succ n' =>
      simp only [Nat.add_zero] at hsucc
      simp [autoLoop, hsucc, show List.range 1 = [0] from rfl]
  | succ j ih =>
    intro n i msg s hn hfail hsucc
    cases n with
    | zero => omega
    | succ n' =>
      obtain ⟨e0, he0⟩ := hfail 0 (Nat.succ_pos j)
      simp only [Nat.add_zero] at he0
      simp only [autoLoop, he0]
      have hfail' : ∀ m, m < j →
          ∃ e, (openDev (k.perDev (i + 1 + m)) k.fd (i + 1 + m)).2 = Except.error e := by
        intro m hm
        have := hfail (m + 1) (by omega)
        rwa [show i + (m + 1) = i + 1 + m by omega] at this
      have hsucc' : (openDev (k.perDev (i + 1 + j)) k.fd (i + 1 + j)).2 = Except.ok s := by
        rwa [show i + (j + 1) = i + 1 + j by omega] at hsucc
      rw [ih n' (i + 1) (msg ++ "(hci" ++ toString i ++ ": " ++ e0 ++ ")") s (by omega)
        hfail' hsucc']
      have hmap : (List.range (j + 1)).map
            (fun m => (openDev (k.perDev (i + 1 + m)) k.fd (i + 1 + m)).1) =
          (List.range (j + 1)).map
            (fun m => (openDev (k.perDev (i + (m + 1))) k.fd (i + (m + 1))).1) := by
        apply List.map_congr_left
        intro a _ha
        rw [show i + 1 + a = i + (a + 1) by omega]
      rw [hmap]
      simp only [List.range_succ_eq_map, List.map_cons, List.map_map, List.flatten_cons,
        Nat.add_zero]
      rfl

/-- Characterization of the probe loop when every attempt fails: the result
is the aggregated error message, with the per-index reasons rendered in
ascending index order after the accumulated message. -/
theorem autoLoop_all_fail (k : ListKernel) (E : Nat → String) :
    ∀ (n i : Nat) (msg : String),
      (∀ m, m < n → (openDev (k.perDev (i + m)) k.fd (i + m)).2 = Except.error (E (i + m))) →
      (autoLoop k i n msg).2 =
        Except.error ("no devices available: " ++ msg ++ renderFails E i n) := by
  intro n
  induction n with
  | zero =>
    intro i msg _h
    simp [autoLoop, renderFails]
  | succ n' ih =>
    intro i msg h
    have h0 := h 0 (Nat.succ_pos n')
    simp only [Nat.add_zero] at h0
    simp only [autoLoop, h0]
    have h' : ∀ m, m < n' →
        (openDev (k.perDev (i + 1 + m)) k.fd (i + 1 + m)).2 =
          Except.error (E (i + 1 + m)) := by
      intro m hm
      have := h (m + 1) (by omega)
      rwa [show i + (m + 1) = i + 1 + m by omega] at this
    rw [ih (i + 1) (msg ++ "(hci" ++ toString i ++ ": " ++ E i ++ ")") h']
    simp only [renderFails]
    simp only [String.append_assoc]

/-- Reduction of NewSocket at the sentinel index -1 when socket creation and
the device-list ioctl succeed: the probe loop runs over the reported count. -/
theorem newSocket_auto_unfold (k : ListKernel) (hsock : k.sockErr = none)
    (hlist : k.listErr = none) :
    newSocket k (-1) =
      (Ev.createSocket :: Ev.getDeviceList :: (autoLoop k 0 k.devNum "").1,
       (autoLoop k 0 k.devNum "").2) := by
  unfold newSocket
  rw [hsock]
  simp only [ne_eq, not_true_eq_false, if_false, reduceIte]
  rw [hlist]

/-! Claim theorems. -/

/-- Claim C1, counterexample to the claim as stated: on a concrete handle
and a kernel where every call succeeds, the Close trace is signal, write-lock
acquire, shutdown-frame write, write-lock release, read-lock acquire,
descriptor release, read-lock release.  The order stated by the claim
(shutdown-frame write first, a write-lock acquire and release after it, then
the descriptor release) does not occur in the trace; what wraps the
descriptor release is the read lock. -/
theorem c1_claim_counterexample :
    (socketClose ⟨none, none⟩ ⟨3, false⟩).1 =
      [Ev.signalClosed, Ev.acquireWrite, Ev.writeFd shutdownFrame, Ev.releaseWrite,
       Ev.acquireRead, Ev.closeFd, Ev.releaseRead] ∧
    seqInOrder [Ev.signalClosed, Ev.writeFd shutdownFrame, Ev.acquireWrite, Ev.releaseWrite,
      Ev.closeFd] (socketClose ⟨none, none⟩ ⟨3, false⟩).1 = false ∧
    seqInOrder [Ev.signalClosed, Ev.writeFd shutdownFrame, Ev.acquireRead, Ev.closeFd,
      Ev.releaseRead] (socketClose ⟨none, none⟩ ⟨3, false⟩).1 = true :=
  ⟨rfl, rfl, rfl⟩

/-- Claim C1, amended: Close on a not-yet-closed handle signals the
closed-indicator first, performs the best-effort shutdown-frame write under
the write lock (acquired before the write and released immediately after it),
then acquires the read lock, releases the descriptor exactly once while
holding it, releases the read lock afterwards, and returns the
descriptor-release failure wrapped with context; the shutdown-frame write
failure is never propagated, and the descriptor is released exactly once even
when that write fails. -/
theorem c1_close_order (k : CloseKernel) (s : Socket) (h : s.closed = false) :
    socketClose k s =
      ([Ev.signalClosed, Ev.acquireWrite, Ev.writeFd shutdownFrame, Ev.releaseWrite,
        Ev.acquireRead, Ev.closeFd, Ev.releaseRead],
       CloseResult.returned (k.closeErr.map (wrap "can\x27t close hci socket"))
         { s with closed := true }) ∧
    ((socketClose k s).1).count Ev.closeFd = 1 := by
  have h1 : socketClose k s =
      ([Ev.signalClosed, Ev.acquireWrite, Ev.writeFd shutdownFrame, Ev.releaseWrite,
        Ev.acquireRead, Ev.closeFd, Ev.releaseRead],
       CloseResult.returned (k.closeErr.map (wrap "can\x27t close hci socket"))
         { s with closed := true }) := by
    simp [socketClose, h, socketWrite]
  exact ⟨h1, by rw [h1]; rfl⟩

/-- Claim C1, witness: the amended theorem applied to a concrete handle and a
kernel whose shutdown-frame write fails, showing the descriptor is still
released exactly once and the write failure is not propagated. -/
theorem c1_close_order_witness :
    socketClose ⟨some "EIO", none⟩ ⟨3, false⟩ =
      ([Ev.signalClosed, Ev.acquireWrite, Ev.writeFd shutdownFrame, Ev.releaseWrite,
        Ev.acquireRead, Ev.closeFd, Ev.releaseRead],
       CloseResult.returned none ⟨3, true⟩) ∧
    ((socketClose ⟨some "EIO", none⟩ ⟨3, false⟩).1).count Ev.closeFd = 1 :=
  c1_close_order ⟨some "EIO", none⟩ ⟨3, false⟩ rfl

/-- Claim C2, counterexample to the claim as stated: on the device-list
failure path and on the every-attempt-fails path, NewSocket returns the
composite failure without any descriptor-release event in its trace, so the
raw control socket is not closed by the caller before the failure is
returned. -/
theorem c2_claim_counterexample :
    ((newSocket leakListKernel (-1)).2 = Except.error "can\x27t get device list: EPERM" ∧
      Ev.closeFd ∉ (newSocket leakListKernel (-1)).1) ∧
    ((newSocket leakLoopKernel (-1)).2 =
        Except.error "no devices available: (hci0: can\x27t down device: ENODEV)" ∧
      Ev.closeFd ∉ (newSocket leakLoopKernel (-1)).1) :=
  ⟨⟨rfl, by decide⟩, ⟨rfl, by decide⟩⟩

/-- Claim C2, amended: on every path of NewSocket, including the overall
failure path of the open-any-available-device flow, the raw control socket is
never closed (the descriptor is leaked on failure), and the per-step open
sequence itself releases no resources on failure. -/
theorem c2_no_descriptor_release (k : ListKernel) (id : Int) :
    Ev.closeFd ∉ (newSocket k id).1 ∧
    ∀ (okr : OpenKernel) (fd devId : Nat), Ev.closeFd ∉ (openDev okr fd devId).1 := by
  constructor
  · unfold newSocket
    cases hs : k.sockErr with
    | some e => simp
    | none =>
      by_cases hid : id ≠ -1
      · simp only [if_pos hid, List.mem_cons]
        push_neg
        exact ⟨by simp, openDev_closeFd_not_mem _ _ _⟩
      · simp only [if_neg hid]
        cases hl : k.listErr with
        | some e => simp
        | none =>
          simp only [List.mem_cons]
          push_neg
          exact ⟨by simp, by simp, autoLoop_closeFd_not_mem _ _ _ _⟩
  · intro okr fd devId
    exact openDev_closeFd_not_mem okr fd devId

/-- Claim C3, counterexample to the claim as stated: when only the final
socket close of Up or Down fails, the returned error is exactly the raw
kernel cause, identical between Up and Down and of the same length as the
cause, so no context distinguishing the failing step was added. -/
theorem c3_claim_counterexample :
    (up ⟨none, none, some "EIO"⟩ 0).2 = some "EIO" ∧
    (down ⟨none, none, some "EIO"⟩ 0).2 = some "EIO" ∧
    (((up ⟨none, none, some "EIO"⟩ 0).2).getD "").length = "EIO".length :=
  ⟨rfl, rfl, rfl⟩

/-- Claim C3, amended: for every call to Up(index) and Down(index),
socket-creation failure and ioctl failure are propagated wrapped with a
message distinguishing the step, but a failure of the final socket close is
returned as is, unwrapped and without added context. -/
theorem c3_up_down_errors (k : CtlKernel) (id : Nat) :
    (∀ e, k.sockErr = some e →
      (up k id).2 = some (wrap "can\x27t create socket" e) ∧
      (down k id).2 = some (wrap "can\x27t create socket" e)) ∧
    (∀ e, k.sockErr = none → k.ioctlErr = some e →
      (up k id).2 = some (wrap "can\x27t up device" e) ∧
      (down k id).2 = some (wrap "can\x27t down device" e)) ∧
    (k.sockErr = none → k.ioctlErr = none →
      (up k id).2 = k.closeErr ∧ (down k id).2 = k.closeErr) := by
  refine ⟨?_, ?_, ?_⟩
  · intro e he
    constructor <;> simp [up, down, he]
  · intro e h1 h2
    constructor <;> simp [up, down, h1, h2]
  · intro h1 h2
    constructor <;> simp [up, down, h1, h2]

/-- Claim C3, witness: the amended theorem applied to concrete kernels for
each of the three failure modes. -/
theorem c3_up_down_errors_witness :
    (up ⟨some "x", none, none⟩ 3).2 = some "can\x27t create socket: x" ∧
    (up ⟨none, some "y", none⟩ 3).2 = some "can\x27t up device: y" ∧
    (down ⟨none, some "y", none⟩ 3).2 = some "can\x27t down device: y" ∧
    (up ⟨none, none, some "z"⟩ 3).2 = some "z" :=
  ⟨((c3_up_down_errors ⟨some "x", none, none⟩ 3).1 "x" rfl).1,
   ((c3_up_down_errors ⟨none, some "y", none⟩ 3).2.1 "y" rfl rfl).1,
   ((c3_up_down_errors ⟨none, some "y", none⟩ 3).2.1 "y" rfl rfl).2,
   ((c3_up_down_errors ⟨none, none, some "z"⟩ 3).2.2 rfl rfl).1⟩

/-- Claim C4: when NewSocket is called with id = -1, the device-list request
succeeds, the open attempts on indices 0 to j-1 fail and the attempt on index
j succeeds, the whole run consists of socket creation, the device-list ioctl,
and exactly one open attempt per index 0, 1, ..., j in ascending order; the
handle of the first success is returned and no index after j is attempted. -/
theorem c4_first_success (k : ListKernel) (j : Nat) (s : Socket)
    (hsock : k.sockErr = none) (hlist : k.listErr = none) (hj : j < k.devNum)
    (hfail : ∀ i, i < j → ∃ e, (openDev (k.perDev i) k.fd i).2 = Except.error e)
    (hsucc : (openDev (k.perDev j) k.fd j).2 = Except.ok s) :
    newSocket k (-1) =
      (Ev.createSocket :: Ev.getDeviceList ::
        (((List.range (j + 1)).map (fun i => (openDev (k.perDev i) k.fd i).1)).flatten),
       Except.ok s) := by
  rw [newSocket_auto_unfold k hsock hlist]
  have hfail' : ∀ m, m < j →
      ∃ e, (openDev (k.perDev (0 + m)) k.fd (0 + m)).2 = Except.error e := by
    intro m hm; simpa using hfail m hm
  have hsucc' : (openDev (k.perDev (0 + j)) k.fd (0 + j)).2 = Except.ok s := by
    simpa using hsucc
  rw [autoLoop_first_success k j k.devNum 0 "" s hj hfail' hsucc']
  simp

/-- Claim C4, witness: the theorem applied to a concrete enumerator reporting
three devices where index 0 fails and index 1 succeeds. -/
theorem c4_first_success_witness :
    newSocket probeKernel (-1) =
      (Ev.createSocket :: Ev.getDeviceList ::
        (((List.range 2).map
          (fun i => (openDev (probeKernel.perDev i) probeKernel.fd i).1)).flatten),
       Except.ok ⟨7, false⟩) :=
  c4_first_success probeKernel 1 ⟨7, false⟩ rfl rfl (by decide)
    (fun i hi => by
      have h0 : i = 0 := by omega
      subst h0
      exact ⟨"can\x27t down device: ENODEV", rfl⟩)
    rfl

/-- Claim C5: when NewSocket is called with id = -1 and the open sequence
fails on every one of the reported indices, the single returned failure is
the text "no devices available: " followed by every failure reason rendered
as "(hci<index>: <reason>)", concatenated in ascending index order. -/
theorem c5_aggregate_message (k : ListKernel) (E : Nat → String)
    (hsock : k.sockErr = none) (hlist : k.listErr = none)
    (hfail : ∀ i, i < k.devNum → (openDev (k.perDev i) k.fd i).2 = Except.error (E i)) :
    (newSocket k (-1)).2 =
      Except.error ("no devices available: " ++ renderFails E 0 k.devNum) := by
  rw [newSocket_auto_unfold k hsock hlist]
  have hfail' : ∀ m, m < k.devNum →
      (openDev (k.perDev (0 + m)) k.fd (0 + m)).2 = Except.error (E (0 + m)) := by
    intro m hm; simpa using hfail m hm
  have := autoLoop_all_fail k E k.devNum 0 "" hfail'
  rw [this]
  rw [String.append_empty]

/-- Claim C5, witness: the theorem applied to a concrete enumerator reporting
two devices whose open attempts both fail with ENODEV on the first down
ioctl. -/
theorem c5_aggregate_message_witness :
    (newSocket allFailKernel (-1)).2 =
      Except.error ("no devices available: " ++
        renderFails (fun _ => "can\x27t down device: ENODEV") 0 2) :=
  c5_aggregate_message allFailKernel (fun _ => "can\x27t down device: ENODEV") rfl rfl
    (fun i hi => by
      have h2 : i < 2 := hi
      clear hi
      interval_cases i <;> rfl)

/-- Claim C6: for every type tag below 2 to the 8, operation number below 2
to the 8 and size below 2 to the 14, the results of ioR and ioW agree on all
bits below bit 30 (the type-tag, operation-number and size fields, which
decode back to the inputs) and differ only in the direction field, which is 2
for ioR and 1 for ioW; both builders are pure Lean functions of their three
arguments, hence deterministic. -/
theorem c6_io_codes (t nr size : Nat)
    (ht : t < 2 ^ 8) (hnr : nr < 2 ^ 8) (hsize : size < 2 ^ 14) :
    ioR t nr size % 2 ^ 30 = ioW t nr size % 2 ^ 30 ∧
    ioR t nr size / 2 ^ 30 = 2 ∧
    ioW t nr size / 2 ^ 30 = 1 ∧
    ioR t nr size % 2 ^ 8 = nr ∧
    ioR t nr size / 2 ^ 8 % 2 ^ 8 = t ∧
    ioR t nr size / 2 ^ 16 % 2 ^ 14 = size ∧
    ioW t nr size % 2 ^ 8 = nr ∧
    ioW t nr size / 2 ^ 8 % 2 ^ 8 = t ∧
    ioW t nr size / 2 ^ 16 % 2 ^ 14 = size := by
  have hR : ioR t nr size = 2 ^ 30 * 2 + (2 ^ 16 * size + (2 ^ 8 * t + nr)) :=
    io_add_form 2 t nr size ht hnr hsize (by omega)
  have hW : ioW t nr size = 2 ^ 30 * 1 + (2 ^ 16 * size + (2 ^ 8 * t + nr)) :=
    io_add_form 1 t nr size ht hnr hsize (by omega)
  rw [hR, hW]
  refine ⟨by omega, by omega, by omega, by omega, ?_, ?_, by omega, ?_, ?_⟩ <;> omega

/-- Claim C6, witness: the theorem applied to the concrete triple used for
HCIGETDEVLIST. -/
theorem c6_io_codes_witness :
    (72 : Nat) < 2 ^ 8 ∧ (210 : Nat) < 2 ^ 8 ∧ (4 : Nat) < 2 ^ 14 ∧
    ioR 72 210 4 % 2 ^ 30 = ioW 72 210 4 % 2 ^ 30 ∧
    ioR 72 210 4 / 2 ^ 30 = 2 ∧ ioW 72 210 4 / 2 ^ 30 = 1 :=
  ⟨by decide, by decide, by decide,
    (c6_io_codes 72 210 4 (by decide) (by decide) (by decide)).1,
    (c6_io_codes 72 210 4 (by decide) (by decide) (by decide)).2.1,
    (c6_io_codes 72 210 4 (by decide) (by decide) (by decide)).2.2.1⟩

/-- Claim C7: on a handle whose closed-indicator has been signaled, every
Read call returns 0 bytes and the end-of-stream error io.EOF with an empty
event trace, so no kernel read is performed and the read lock is never
acquired. -/
theorem c7_read_after_close (k : ReadKernel) (s : Socket) (bufLen : Nat)
    (h : s.closed = true) :
    socketRead k s bufLen = ([], (0, some "EOF")) := by
  simp [socketRead, h]

/-- Claim C7, witness: the theorem applied to a concrete closed handle. -/
theorem c7_read_after_close_witness :
    socketRead ⟨0, none⟩ ⟨3, true⟩ 10 = ([], (0, some "EOF")) :=
  c7_read_after_close ⟨0, none⟩ ⟨3, true⟩ 10 rfl

/-- Claim C8: the open sequence executes down, up, down, bind, a 20 ms poll
and a conditional 100-byte drain read in strict order; a failure of the down,
up, down or bind step aborts the sequence exactly at that step, no later
event occurs, and the returned error wraps the cause with a message naming
the failing step. -/
theorem c8_open_sequence (k : OpenKernel) (fd id : Nat) :
    (∀ e, k.down1Err = some e →
      openDev k fd id = ([Ev.downDev id], Except.error (wrap "can\x27t down device" e))) ∧
    (∀ e, k.down1Err = none → k.upErr = some e →
      openDev k fd id =
        ([Ev.downDev id, Ev.upDev id], Except.error (wrap "can\x27t up device" e))) ∧
    (∀ e, k.down1Err = none → k.upErr = none → k.down2Err = some e →
      openDev k fd id =
        ([Ev.downDev id, Ev.upDev id, Ev.downDev id],
         Except.error (wrap "can\x27t down device" e))) ∧
    (∀ e, k.down1Err = none → k.upErr = none → k.down2Err = none → k.bindErr = some e →
      openDev k fd id =
        ([Ev.downDev id, Ev.upDev id, Ev.downDev id, Ev.bindDev id],
         Except.error (wrap "can\x27t bind socket to hci user channel" e))) ∧
    (k.down1Err = none → k.upErr = none → k.down2Err = none → k.bindErr = none →
      openDev k fd id =
        ([Ev.downDev id, Ev.upDev id, Ev.downDev id, Ev.bindDev id, Ev.pollWait 20] ++
           (if k.pollDataReady then [Ev.readFd 100] else []),
         Except.ok { fd := fd, closed := false })) := by
  refine ⟨?_, ?_, ?_, ?_, ?_⟩
  · intro e h1
    simp [openDev, h1]
  · intro e h1 h2
    simp [openDev, h1, h2]
  · intro e h1 h2 h3
    simp [openDev, h1, h2, h3]
  · intro e h1 h2 h3 h4
    simp [openDev, h1, h2, h3, h4]
  · intro h1 h2 h3 h4
    simp [openDev, h1, h2, h3, h4]

/-- Claim C8, witness: the theorem applied to one concrete kernel per failing
step and to a fully successful kernel with pending inbound data. -/
theorem c8_open_sequence_witness :
    openDev ⟨some "E1", none, none, none, false, 0, 0⟩ 5 2 =
      ([Ev.downDev 2], Except.error "can\x27t down device: E1") ∧
    openDev ⟨none, some "E2", none, none, false, 0, 0⟩ 5 2 =
      ([Ev.downDev 2, Ev.upDev 2], Except.error "can\x27t up device: E2") ∧
    openDev ⟨none, none, some "E3", none, false, 0, 0⟩ 5 2 =
      ([Ev.downDev 2, Ev.upDev 2, Ev.downDev 2], Except.error "can\x27t down device: E3") ∧
    openDev ⟨none, none, none, some "E4", false, 0, 0⟩ 5 2 =
      ([Ev.downDev 2, Ev.upDev 2, Ev.downDev 2, Ev.bindDev 2],
       Except.error "can\x27t bind socket to hci user channel: E4") ∧
    openDev ⟨none, none, none, none, true, 0, 0⟩ 5 2 =
      ([Ev.downDev 2, Ev.upDev 2, Ev.downDev 2, Ev.bindDev 2, Ev.pollWait 20, Ev.readFd 100],
       Except.ok ⟨5, false⟩) :=
  ⟨(c8_open_sequence ⟨some "E1", none, none, none, false, 0, 0⟩ 5 2).1 "E1" rfl,
   (c8_open_sequence ⟨none, some "E2", none, none, false, 0, 0⟩ 5 2).2.1 "E2" rfl rfl,
   (c8_open_sequence ⟨none, none, some "E3", none, false, 0, 0⟩ 5 2).2.2.1 "E3" rfl rfl rfl,
   (c8_open_sequence ⟨none, none, none, some "E4", false, 0, 0⟩ 5 2).2.2.2.1 "E4"
     rfl rfl rfl rfl,
   (c8_open_sequence ⟨none, none, none, none, true, 0, 0⟩ 5 2).2.2.2.2 rfl rfl rfl rfl⟩

/-- Claim C9: a first Close on a not-yet-closed handle signals the
closed-indicator exactly once and returns normally, and a second Close on the
resulting handle immediately panics, because close(s.closed) has no
double-close guard and closing an already closed channel is a Go runtime
panic. -/
theorem c9_double_close (k1 k2 : CloseKernel) (s : Socket) (h : s.closed = false) :
    ((socketClose k1 s).1).count Ev.signalClosed = 1 ∧
    ∃ err s1, (socketClose k1 s).2 = CloseResult.returned err s1 ∧
      socketClose k2 s1 = ([], CloseResult.panicked) := by
  have h1 : socketClose k1 s =
      ([Ev.signalClosed, Ev.acquireWrite, Ev.writeFd shutdownFrame, Ev.releaseWrite,
        Ev.acquireRead, Ev.closeFd, Ev.releaseRead],
       CloseResult.returned (k1.closeErr.map (wrap "can\x27t close hci socket"))
         { s with closed := true }) := by
    simp [socketClose, h, socketWrite]
  refine ⟨by rw [h1]; rfl, _, { s with closed := true }, by rw [h1], ?_⟩
  simp [socketClose]

/-- Claim C9, witness: the theorem applied to a concrete fresh handle. -/
theorem c9_double_close_witness :
    ((socketClose ⟨none, none⟩ ⟨3, false⟩).1).count Ev.signalClosed = 1 ∧
    ∃ err s1, (socketClose ⟨none, none⟩ ⟨3, false⟩).2 = CloseResult.returned err s1 ∧
      socketClose ⟨none, none⟩ s1 = ([], CloseResult.panicked) :=
  c9_double_close ⟨none, none⟩ ⟨none, none⟩ ⟨3, false⟩ rfl

/-- Claim C10: once the four steps up to and including the bind succeed, the
open sequence returns a handle with the given descriptor and a fresh
unsignaled closed-indicator together with a nil error, for every outcome of
the poll and of the drain read: their results are fields of the oracle that
the function never consults, so neither can make the open fail. -/
theorem c10_open_after_bind (k : OpenKernel) (fd id : Nat)
    (h1 : k.down1Err = none) (h2 : k.upErr = none) (h3 : k.down2Err = none)
    (h4 : k.bindErr = none) :
    (openDev k fd id).2 = Except.ok { fd := fd, closed := false } := by
  simp [openDev, h1, h2, h3, h4]

/-- Claim C10, witness: the theorem applied to two concrete kernels, one with
and one without pending inbound data and with differing discarded poll and
read results. -/
theorem c10_open_after_bind_witness :
    (openDev ⟨none, none, none, none, true, -1, -1⟩ 9 1).2 = Except.ok ⟨9, false⟩ ∧
    (openDev ⟨none, none, none, none, false, 0, 5⟩ 9 1).2 = Except.ok ⟨9, false⟩ :=
  ⟨c10_open_after_bind ⟨none, none, none, none, true, -1, -1⟩ 9 1 rfl rfl rfl rfl,
   c10_open_after_bind ⟨none, none, none, none, false, 0, 5⟩ 9 1 rfl rfl rfl rfl⟩

end KirboBle
